import Mathlib

/-!
Verification of the notification-service event-to-delivery pipeline.

Shallow embedding of the Go source:
* `internal/kafka/consumer.go` — consumer deduplication (`consumeNext`),
  mirrored by the sarama draft's `ConsumeClaim`;
* `internal/services/service.go` — `evaluateCondition`, `QueueTask`, and the
  per-policy dispatch tail of `handleTask`;
* `internal/db/policies.go` — relational model of `GetPoliciesByUserID`;
* `internal/utils/retry.go` — `Retry`;
* the sarama consumer draft — `AlertNotification.UnmarshalJSON`;
* the `internal/notification` package draft — `processTask`.

Go machine integers are modelled as `Int` (no overflow is relevant to any
statement below); `time.Time` values are modelled as `Int` instants where
only ordering is used; float64 values are compared only with `==` in the
source, so they are modelled as `Int`; fallible calls are modelled with
`Option`/`Except`.
-/

namespace NotificationService

/-! ### Consumer deduplication (`internal/kafka/consumer.go`, `consumeNext`)

The consumer keeps `lastSeen : map[string]time.Time`.  On each message it
does:

```go
last, ok := c.lastSeen[alert.AlertID]
if ok && !alert.Timestamp.After(last) {
    // commit offset, drop message
    return nil
}
c.lastSeen[alert.AlertID] = alert.Timestamp
// build task, QueueTask, commit offset
```

`time.Time` is modelled as an `Int` instant (`After` is strict `>`); the map
is modelled as an association list. -/

/-- Go map read `last, ok := m[a]`: first binding for the key, if any. -/
def lookupSeen (m : List (String × Int)) (a : String) : Option Int :=
  match m.find? (fun p => p.1 = a) with
  | some p => some p.2
  | none => none

/-- Go map write `m[a] = t`: the new binding shadows any previous one. -/
def insertSeen (m : List (String × Int)) (a : String) (t : Int) :
    List (String × Int) :=
  (a, t) :: m.filter (fun p => ¬ p.1 = a)

/-- Observable outcome of one `consumeNext` pass on an inbound message. -/
structure ConsumeResult where
  enqueued : Bool
  committed : Bool
  newSeen : List (String × Int)
  deriving DecidableEq, Repr

/-- The dedup pass of `consumeNext` for a message with alert id `a` and
timestamp `t` (the fetch and unmarshal having succeeded).  The sarama draft's
`ConsumeClaim` performs the identical test and updates. -/
def consumeNextDedup (m : List (String × Int)) (a : String) (t : Int) :
    ConsumeResult :=
  match lookupSeen m a with
  | some last =>
      if ¬ t > last then
        { enqueued := false, committed := true, newSeen := m }
      else
        { enqueued := true, committed := true, newSeen := insertSeen m a t }
  | none =>
      { enqueued := true, committed := true, newSeen := insertSeen m a t }

/-! ### Policy condition evaluation (`internal/services/service.go`) -/

/-- `evaluateCondition` from `internal/services/service.go`: a `switch` on the
condition code, `default: return false`. -/
def evaluateCondition (cond : String) (alertSeverity policySeverity : Int) :
    Bool :=
  if cond = "EQ" then alertSeverity = policySeverity
  else if cond = "NEQ" then alertSeverity ≠ policySeverity
  else if cond = "GT" then alertSeverity > policySeverity
  else if cond = "GTE" then alertSeverity ≥ policySeverity
  else if cond = "LT" then alertSeverity < policySeverity
  else if cond = "LTE" then alertSeverity ≤ policySeverity
  else false

/-! ### Bounded task queue (`internal/services/service.go`, `QueueTask`)

```go
select {
case s.tasks <- task:   // buffered channel of capacity queue_size
default:                // queue full: drop, log at error level
}
```

With no receiver concurrently blocked, a send on a buffered channel succeeds
exactly when the buffer holds fewer than `capacity` elements, appending at
the back; otherwise the `default` branch fires and the task is dropped. -/

/-- One non-blocking enqueue on the bounded FIFO queue.  Returns the new
queue contents and whether the task was accepted (`false` = dropped). -/
def queueTask {α : Type} (capacity : Nat) (q : List α) (t : α) :
    List α × Bool :=
  if q.length < capacity then (q ++ [t], true) else (q, false)

/-! ### Per-policy dispatch tail (`internal/services/service.go`,
`handleTask` lines 171–191)

After the notification has been persisted with status `pending`:

```go
if notif.Silenced == 0 {
    provider := s.providerFuncs[pol.ContactPoint.Type]
    err = provider(s.ctx, notif, *pol.ContactPoint)
    final := "success"
    if err != nil { final = "failed" }
    _ = s.db.UpdateNotificationStatus(s.ctx, task.RequestID, final,
                                      fmt.Sprintf("%v", err))
} else {
    _ = s.db.UpdateNotificationStatus(s.ctx, task.RequestID, "silenced",
                                      "Notification silenced, no dispatch")
}
```

A provider call is modelled by its result `Option String` (`none` = success,
`some msg` = failure with message `msg`). -/

/-- Go's `fmt.Sprintf("%v", err)` on an `error` value: the message for a
non-nil error, the string `"<nil>"` for a nil one. -/
def goErrValue : Option String → String
  | none => "<nil>"
  | some e => e

/-- Observable outcome of the dispatch tail: the sequence of
`UpdateNotificationStatus (status, error)` calls and whether a provider was
invoked. -/
structure DispatchOutcome where
  updates : List (String × String)
  providerInvoked : Bool
  deriving DecidableEq, Repr

/-- The dispatch tail of `handleTask` for one matching policy, as a function
of the task's `Silenced` flag and the provider result. -/
def handleTaskDispatch (silenced : Int) (providerErr : Option String) :
    DispatchOutcome :=
  if silenced = 0 then
    { updates := [((match providerErr with
        | none => "success"
        | some _ => "failed"), goErrValue providerErr)],
      providerInvoked := true }
  else
    { updates := [("silenced", "Notification silenced, no dispatch")],
      providerInvoked := false }

/-! ### `GetPoliciesByUserID` (`internal/db/policies.go` lines 119–183)

Relational model of

```sql
SELECT np.*, cp.*
FROM notification_policy np
LEFT JOIN contact_points cp
  ON np.contact_point_id = cp.id AND cp.user_id = $1 AND cp.status = 'active'
WHERE np.status = 'active'
```

followed by the scan loop, which attaches the contact point to the policy
only when the joined columns are non-null.  UUIDs are modelled as `Nat`. -/

/-- A row of `contact_points` (the columns the query uses). -/
structure ContactPointRow where
  id : Nat
  userId : Int
  type : String
  status : String
  deriving DecidableEq, Repr

/-- A row of `notification_policy` (the columns the query uses). -/
structure PolicyRow where
  id : Nat
  contactPointId : Nat
  severity : Int
  status : String
  conditionType : String
  deriving DecidableEq, Repr

/-- One scanned result row: the policy plus the optionally joined contact
point (null columns ⇒ `none`). -/
structure PolicyResult where
  policy : PolicyRow
  contactPoint : Option ContactPointRow
  deriving DecidableEq, Repr

/-- The two tables the query reads. -/
structure StoreTables where
  policies : List PolicyRow
  contactPoints : List ContactPointRow
  deriving DecidableEq, Repr

/-- The `ON` condition of the left join. -/
def joinCond (userID : Int) (p : PolicyRow) (cp : ContactPointRow) : Bool :=
  cp.id == p.contactPointId && cp.userId == userID && cp.status == "active"

/-- SQL left-join semantics for one left row: every matching right row, or a
single null-padded row when none matches. -/
def leftJoinRow (cps : List ContactPointRow) (userID : Int) (p : PolicyRow) :
    List PolicyResult :=
  match cps.filter (joinCond userID p) with
  | [] => [{ policy := p, contactPoint := none }]
  | ms => ms.map fun cp => { policy := p, contactPoint := some cp }

/-- `GetPoliciesByUserID`: left join over all policies, then the `WHERE`
filter `np.status = 'active'`. -/
def getPoliciesByUserID (db : StoreTables) (userID : Int) :
    List PolicyResult :=
  (db.policies.flatMap (leftJoinRow db.contactPoints userID)).filter
    (fun r => r.policy.status == "active")

/-- An active policy whose contact point belongs to user 2. -/
def crossUserPolicy : PolicyRow :=
  { id := 1, contactPointId := 1, severity := 3, status := "active",
    conditionType := "GTE" }

/-- The active contact point of user 2 referenced by `crossUserPolicy`. -/
def crossUserCP : ContactPointRow :=
  { id := 1, userId := 2, type := "email", status := "active" }

/-- A store holding exactly user 2's policy and contact point. -/
def crossUserDB : StoreTables :=
  { policies := [crossUserPolicy], contactPoints := [crossUserCP] }

/-- A store with one active policy and its active contact point, both of
user 7. -/
def smallDB : StoreTables :=
  { policies := [{ id := 2, contactPointId := 5, severity := 3,
                   status := "active", conditionType := "GTE" }],
    contactPoints := [{ id := 5, userId := 7, type := "telegram",
                        status := "active" }] }

/-! ### `processTask` (`internal/notification` package, the worker wired by
`cmd/main.go`)

Control flow of `processTask`:
1. `uuid.Parse(task.RequestID)`; on error return.
2. `uuid.Parse(task.PolicyID)`; an error is only logged.
3. `CreateNotification` with status `pending`; on error return.
4. If `task.Status == "resolved"`: `GetLatestNotification`; when it
   succeeds and the record has `LatestStatus == "resolved"`,
   `Status == "sent"` and `Value == task.Value`, update status
   `("cancelled", "already sent and resolved with same value")` and return.
5. `GetPolicy`; on error update `("failed", err)` and return.
6. Update `("pending", "")`.
7. `GetContactPoint`; on error update `("failed", err)` and return.
8. Look up `providerFuncs[cp.Type]` (keys `"email"`, `"telegram"`); when
   absent update `("failed", "unsupported provider type: " + cp.Type)` and
   return without invoking any provider.
9. Invoke the provider; on error update `("failed", err)`, on success
   update `("sent", "")`.

Store calls and the provider are modelled by an environment of oracle
results; float64 values are only compared with `==`, so they are `Int`. -/

/-- The fields of a notification row read by the resolved-event check. -/
structure NotificationRec where
  status : String
  latestStatus : String
  value : Int
  deriving DecidableEq, Repr

/-- Oracle results for the store calls and the provider call made by one
`processTask` run. -/
structure ProcessEnv where
  requestIDValid : Bool
  createOk : Bool
  latest : Option NotificationRec
  policyRes : Except String Unit
  contactRes : Except String String
  providerRes : Option String
  deriving Repr

/-- Observable outcome of one `processTask` run: the sequence of
`UpdateNotificationStatus (status, error)` calls, whether a provider was
invoked, and whether the pending record was created. -/
structure ProcessResult where
  updates : List (String × String)
  providerInvoked : Bool
  created : Bool
  deriving DecidableEq, Repr

/-- The condition under which the resolved-event branch cancels and returns:
the task kind is `resolved`, `GetLatestNotification` succeeded, and the
fetched record is `latest_status = "resolved"`, `status = "sent"` with the
same value as the task. -/
def resolvedCancel (env : ProcessEnv) (taskStatus : String)
    (taskValue : Int) : Bool :=
  taskStatus == "resolved" &&
    (match env.latest with
     | some l =>
         l.latestStatus == "resolved" && l.status == "sent" &&
           l.value == taskValue
     | none => false)

/-- `processTask` as a function of the oracle environment, the task's kind
(`task.Status`) and its value. -/
def processTask (env : ProcessEnv) (taskStatus : String) (taskValue : Int) :
    ProcessResult :=
  if !env.requestIDValid then
    { updates := [], providerInvoked := false, created := false }
  else if !env.createOk then
    { updates := [], providerInvoked := false, created := false }
  else if resolvedCancel env taskStatus taskValue then
    { updates := [("cancelled", "already sent and resolved with same value")],
      providerInvoked := false, created := true }
  else
    match env.policyRes with
    | .error e =>
        { updates := [("failed", e)], providerInvoked := false,
          created := true }
    | .ok _ =>
        match env.contactRes with
        | .error e =>
            { updates := [("pending", ""), ("failed", e)],
              providerInvoked := false, created := true }
        | .ok cpType =>
            if !(cpType == "email" || cpType == "telegram") then
              { updates := [("pending", ""),
                  ("failed", "unsupported provider type: " ++ cpType)],
                providerInvoked := false, created := true }
            else
              match env.providerRes with
              | some e =>
                  { updates := [("pending", ""), ("failed", e)],
                    providerInvoked := true, created := true }
              | none =>
                  { updates := [("pending", ""), ("sent", "")],
                    providerInvoked := true, created := true }

/-- Environment whose contact point has the unsupported kind `sms`. -/
def unknownKindEnv : ProcessEnv :=
  { requestIDValid := true, createOk := true, latest := none,
    policyRes := .ok (), contactRes := .ok "sms", providerRes := none }

/-- Environment whose latest notification was `sent` with value 42 but whose
recorded `latest_status` is `"alert"`, not `"resolved"`. -/
def resolvedPriorSentEnv : ProcessEnv :=
  { requestIDValid := true, createOk := true,
    latest := some { status := "sent", latestStatus := "alert", value := 42 },
    policyRes := .ok (), contactRes := .ok "email", providerRes := none }

/-- Environment whose latest notification is `sent`/`resolved` with
value 42. -/
def resolvedCancelEnv : ProcessEnv :=
  { requestIDValid := true, createOk := true,
    latest := some { status := "sent", latestStatus := "resolved",
                     value := 42 },
    policyRes := .ok (), contactRes := .ok "email", providerRes := none }

/-- Environment whose latest notification is a `failed` attempt. -/
def resolvedPriorFailedEnv : ProcessEnv :=
  { requestIDValid := true, createOk := true,
    latest := some { status := "failed", latestStatus := "resolved",
                     value := 42 },
    policyRes := .ok (), contactRes := .ok "email", providerRes := none }

/-! ### `Retry` (`internal/utils/retry.go`)

```go
func Retry(logger, maxAttempts int, delay time.Duration, fn func() error) error {
    var lastErr error
    for attempt := 1; attempt <= maxAttempts; attempt++ {
        if err := fn(); err != nil {
            lastErr = err
            if attempt < maxAttempts { time.Sleep(delay) }
            continue
        }
        return nil
    }
    return fmt.Errorf("failed after %d attempts: %w", maxAttempts, lastErr)
}
```

`fn` is modelled by the sequence of its results (`fn k` = result of the
`k`-th invocation, 0-based, `none` = success); sleeps are recorded as the
list of slept durations. -/

/-- Go's `%w` formatting of the wrapped error (nil produces the fmt
bad-verb rendering). -/
def goErrWrap : Option String → String
  | some e => e
  | none => "%!w(<nil>)"

/-- Observable trace of one `Retry` call: the returned error (`none` =
success), the number of `fn` invocations, and the slept durations in
order. -/
structure RetryTrace where
  result : Option String
  calls : Nat
  sleeps : List Nat
  deriving DecidableEq, Repr

/-- The retry loop: `left` attempts remain, `done` invocations happened,
`lastErr` is the last failure.  Mirrors the `for` loop of `Retry`; the sleep
fires exactly when the failed attempt is not the last one (`left > 0`
after consuming the current attempt). -/
def retryGoAux (maxAttempts delay : Nat) (fn : Nat → Option String) :
    Nat → Nat → Option String → RetryTrace
  | 0, done, lastErr =>
      { result := some ("failed after " ++ toString maxAttempts ++
          " attempts: " ++ goErrWrap lastErr),
        calls := done, sleeps := [] }
  | left + 1, done, _ =>
      match fn done with
      | none => { result := none, calls := done + 1, sleeps := [] }
      | some e =>
          let rest := retryGoAux maxAttempts delay fn left (done + 1) (some e)
          { result := rest.result, calls := rest.calls,
            sleeps := if left > 0 then delay :: rest.sleeps else rest.sleeps }

/-- `Retry(logger, maxAttempts, delay, fn)`. -/
def retryGo (maxAttempts delay : Nat) (fn : Nat → Option String) :
    RetryTrace :=
  retryGoAux maxAttempts delay fn maxAttempts 0 none

/-- A provider stub that fails twice then succeeds. -/
def flaky : Nat → Option String :=
  fun k => if k < 2 then some "transient" else none

/-! ### `AlertNotification.UnmarshalJSON` (sarama consumer draft)

```go
func (a *AlertNotification) UnmarshalJSON(data []byte) error {
    type Alias AlertNotification
    aux := &struct {
        Timestamp []interface{} `json:"timestamp"`
        *Alias
    }{ Alias: (*Alias)(a) }
    if err := json.Unmarshal(data, &aux); err != nil { return err }
    if len(aux.Timestamp) == 7 {
        ... a.Timestamp = time.Date(y, m, d, H, M, S, ns, time.UTC)
    }
    return nil
}
```

The outer `Timestamp []interface` field shadows the embedded struct's
`time.Time` field, so the `timestamp` JSON value is always decoded into a
slice.  Go's `encoding/json` returns an `UnmarshalTypeError` when the JSON
value for a slice destination is a string, so `json.Unmarshal` fails and
`UnmarshalJSON` propagates the error.  A 7-element numeric array decodes
into the slice and is converted with `time.Date` in UTC; any other array
length leaves the timestamp at Go's zero `time.Time`. -/

/-- The JSON value found under the `timestamp` key. -/
inductive TsJson where
  | str (s : String)
  | arr (xs : List Int)
  deriving DecidableEq, Repr

/-- The UTC components handed to `time.Date(y, m, d, H, M, S, ns, UTC)`. -/
structure GoTime where
  year : Int
  month : Int
  day : Int
  hour : Int
  minute : Int
  second : Int
  nanosecond : Int
  deriving DecidableEq, Repr

/-- Go's zero `time.Time`: January 1, year 1, 00:00:00 UTC. -/
def zeroGoTime : GoTime :=
  { year := 1, month := 1, day := 1, hour := 0, minute := 0, second := 0,
    nanosecond := 0 }

/-- The decoder's behaviour on the `timestamp` field. -/
def unmarshalTimestampField : TsJson → Except String GoTime
  | .str _ =>
      .error "json: cannot unmarshal string into Go value of type slice"
  | .arr [y, mo, d, h, mi, s, ns] => .ok ⟨y, mo, d, h, mi, s, ns⟩
  | .arr _ => .ok zeroGoTime

end NotificationService

namespace NotificationService

/-! ## Theorems -/

/-- **C1** Consumer deduplication: a message with alert id `a` and timestamp
`t` is processed (task enqueued, `lastSeen[a] := t`) iff `a` is absent from
`lastSeen` or `t` is strictly after the recorded timestamp; otherwise the
offset is still committed, nothing is enqueued and the map is unchanged. -/
theorem consumer_dedup (m : List (String × Int)) (a : String) (t : Int) :
    ((consumeNextDedup m a t).enqueued = true ↔
      (lookupSeen m a = none ∨ ∃ l, lookupSeen m a = some l ∧ l < t)) ∧
    (consumeNextDedup m a t).committed = true ∧
    (consumeNextDedup m a t).newSeen =
      (if (consumeNextDedup m a t).enqueued then insertSeen m a t else m) := by
  unfold consumeNextDedup
  cases h : lookupSeen m a with
  | none => simp
  | some last =>
      by_cases hlt : t > last
      · simp [hlt]
      · simp only [hlt, not_false_eq_true, if_pos, if_true]
        constructor
        · constructor
          · intro hfalse; simp at hfalse
          · rintro (hnone | ⟨l, hl, hiff⟩)
            · simp at hnone
            · cases hl; omega
        · simp

/-- **C2** Policy condition evaluation: the operator table is exactly
EQ/NEQ/GT/GTE/LT/LTE over the integers, every other code yields `false`, and
the identities GTE = GT ∨ EQ, LTE = LT ∨ EQ, NEQ = ¬EQ hold. -/
theorem evaluate_condition_table (a p : Int) (cond : String) :
    (evaluateCondition "EQ" a p = true ↔ a = p) ∧
    (evaluateCondition "NEQ" a p = true ↔ a ≠ p) ∧
    (evaluateCondition "GT" a p = true ↔ a > p) ∧
    (evaluateCondition "GTE" a p = true ↔ a ≥ p) ∧
    (evaluateCondition "LT" a p = true ↔ a < p) ∧
    (evaluateCondition "LTE" a p = true ↔ a ≤ p) ∧
    (cond ∉ ["EQ", "NEQ", "GT", "GTE", "LT", "LTE"] →
      evaluateCondition cond a p = false) ∧
    (evaluateCondition "GTE" a p =
      (evaluateCondition "GT" a p || evaluateCondition "EQ" a p)) ∧
    (evaluateCondition "LTE" a p =
      (evaluateCondition "LT" a p || evaluateCondition "EQ" a p)) ∧
    (evaluateCondition "NEQ" a p = !evaluateCondition "EQ" a p) := by
  unfold evaluateCondition
  refine ⟨by simp, by simp, by simp, by simp, by simp, by simp, ?_, ?_, ?_, ?_⟩
  · intro hmem
    simp only [List.mem_cons, List.not_mem_nil, or_false] at hmem
    push_neg at hmem
    obtain ⟨h1, h2, h3, h4, h5, h6⟩ := hmem
    simp [h1, h2, h3, h4, h5, h6]
  · simp only [if_neg (by decide : ¬ ("GTE" : String) = "EQ"),
      if_neg (by decide : ¬ ("GTE" : String) = "NEQ"),
      if_neg (by decide : ¬ ("GTE" : String) = "GT"), if_pos rfl,
      if_neg (by decide : ¬ ("GT" : String) = "EQ"),
      if_neg (by decide : ¬ ("GT" : String) = "NEQ"), if_pos rfl,
      if_neg (by decide : ¬ ("EQ" : String) = "EQ" → False)]
    by_cases hgt : a > p <;> by_cases heq : a = p <;>
      simp [hgt, heq] <;> omega
  · by_cases hlt : a < p <;> by_cases heq : a = p <;>
      simp [hlt, heq] <;> omega
  · by_cases heq : a = p <;> simp [heq]

/-- Witness for `evaluate_condition_table`: the unknown code `"FOO"` yields
`false` at a concrete input. -/
theorem evaluate_condition_table_witness :
    evaluateCondition "FOO" 1 2 = false :=
  (evaluate_condition_table 1 2 "FOO").2.2.2.2.2.2.1 (by decide)

/-- **C7** Queue-full drop: `QueueTask` never blocks; at capacity the enqueue
leaves the queue unchanged and reports the task dropped, below capacity the
task is appended at the back (FIFO). -/
theorem queue_task_bounded (capacity : Nat) (q : List Nat) (t : Nat) :
    (q.length = capacity → queueTask capacity q t = (q, false)) ∧
    (q.length < capacity → queueTask capacity q t = (q ++ [t], true)) := by
  constructor
  · intro hfull
    unfold queueTask
    simp [hfull]
  · intro hroom
    unfold queueTask
    simp [hroom]

/-- Witness for `queue_task_bounded`: a queue of length 2 with capacity 2
drops the incoming task; with capacity 3 it appends it. -/
theorem queue_task_bounded_witness :
    queueTask 2 [10, 11] 12 = ([10, 11], false) ∧
    queueTask 3 [10, 11] 12 = ([10, 11, 12], true) :=
  ⟨(queue_task_bounded 2 [10, 11] 12).1 (by decide),
   (queue_task_bounded 3 [10, 11] 12).2 (by decide)⟩

/-- **C3 counterexample** On provider success `handleTask` records status
`success` with error string `"<nil>"` (Go's rendering of the nil error), not
the empty error string the claim demands. -/
theorem final_status_empty_error_cex :
    (handleTaskDispatch 0 none).updates ≠ [("success", "")] ∧
    (handleTaskDispatch 0 none).updates = [("success", "<nil>")] := by
  constructor <;> decide

/-- **C3 (amended)** Final-status postcondition: for every non-silenced
dispatched notification exactly one final status is recorded — on provider
success `("success", "<nil>")` (the error field holds Go's formatting of the
nil error, not the empty string), on provider failure `("failed", msg)` with
the error's message. -/
theorem final_status_postcondition (e : Option String) :
    (handleTaskDispatch 0 e).updates.length = 1 ∧
    (handleTaskDispatch 0 e).providerInvoked = true ∧
    (e = none → (handleTaskDispatch 0 e).updates = [("success", "<nil>")]) ∧
    (∀ msg, e = some msg →
      (handleTaskDispatch 0 e).updates = [("failed", msg)]) := by
  unfold handleTaskDispatch goErrValue
  cases e <;> simp

/-- Witness for `final_status_postcondition`: a concrete provider failure is
recorded as `failed` with the message preserved. -/
theorem final_status_postcondition_witness :
    (handleTaskDispatch 0 (some "smtp: connection refused")).updates =
      [("failed", "smtp: connection refused")] :=
  (final_status_postcondition (some "smtp: connection refused")).2.2.2
    "smtp: connection refused" rfl

/-- **C4 (code bug)** Cross-user leak in `GetPoliciesByUserID`: the
`cp.user_id = $1` test sits in the `ON` clause of the left join instead of
the `WHERE` clause, so querying for user 1 still returns user 2's active
policy (null-padded).  This contradicts the function's own doc comment
("returns all active policies … for a user"). -/
theorem get_policies_cross_user_leak :
    getPoliciesByUserID crossUserDB 1 =
      [{ policy := crossUserPolicy, contactPoint := none }] ∧
    crossUserCP.userId ≠ 1 ∧
    crossUserCP.id = crossUserPolicy.contactPointId ∧
    crossUserCP.status = "active" := by
  refine ⟨?_, by decide, by decide, by decide⟩
  decide

/-- Every row `leftJoinRow` produces carries either no contact point or one
accepted by the join condition. -/
theorem left_join_row_cp_active (cps : List ContactPointRow) (u : Int)
    (p : PolicyRow) :
    ∀ r ∈ leftJoinRow cps u p,
      r.contactPoint = none ∨
        ∃ cp, r.contactPoint = some cp ∧ cp.status = "active" := by
  intro r hr
  unfold leftJoinRow at hr
  cases hfil : cps.filter (joinCond u p) with
  | nil =>
      rw [hfil] at hr
      simp at hr
      left
      rw [hr]
  | cons c ms =>
      rw [hfil] at hr
      simp only [List.mem_map] at hr
      obtain ⟨cp, hcp, hreq⟩ := hr
      right
      refine ⟨cp, by rw [← hreq], ?_⟩
      have hmem : cp ∈ cps.filter (joinCond u p) := by
        rw [hfil]; exact hcp
      have hcond := List.of_mem_filter hmem
      unfold joinCond at hcond
      simp only [Bool.and_eq_true, beq_iff_eq] at hcond
      exact hcond.2

/-- **C5** Left-join invariant: every policy returned by
`GetPoliciesByUserID` embeds either an active contact point or none; no
returned policy carries an inactive contact point. -/
theorem get_policies_left_join_invariant (db : StoreTables) (u : Int) :
    ∀ r ∈ getPoliciesByUserID db u,
      r.contactPoint = none ∨
        ∃ cp, r.contactPoint = some cp ∧ cp.status = "active" := by
  intro r hr
  unfold getPoliciesByUserID at hr
  have hmem := List.mem_of_mem_filter hr
  rw [List.mem_flatMap] at hmem
  obtain ⟨p, _, hrow⟩ := hmem
  exact left_join_row_cp_active db.contactPoints u p r hrow

/-- Witness for `get_policies_left_join_invariant` at a concrete store: the
returned row for user 7 satisfies the invariant. -/
theorem get_policies_left_join_invariant_witness :
    ∃ r ∈ getPoliciesByUserID smallDB 7,
      r.contactPoint = none ∨
        ∃ cp, r.contactPoint = some cp ∧ cp.status = "active" := by
  refine ⟨{ policy := { id := 2, contactPointId := 5, severity := 3,
                        status := "active", conditionType := "GTE" },
            contactPoint := some { id := 5, userId := 7, type := "telegram",
                                   status := "active" } }, ?_, ?_⟩
  · decide
  · exact get_policies_left_join_invariant smallDB 7 _ (by decide)

/-- **C6** Unknown provider kind: when the resolved contact point's kind is
neither `email` nor `telegram`, `processTask` records status `failed` with
the "unsupported provider type" reason, invokes no provider, and returns
normally (no panic). -/
theorem unknown_provider_kind (env : ProcessEnv) (ts : String) (tv : Int)
    (ty : String) (hreq : env.requestIDValid = true)
    (hcreate : env.createOk = true)
    (hnc : resolvedCancel env ts tv = false)
    (hpol : env.policyRes = .ok ())
    (hcp : env.contactRes = .ok ty)
    (he : ty ≠ "email") (htg : ty ≠ "telegram") :
    processTask env ts tv =
      { updates := [("pending", ""),
          ("failed", "unsupported provider type: " ++ ty)],
        providerInvoked := false, created := true } := by
  unfold processTask
  rw [hreq, hcreate, hnc, hpol, hcp]
  simp [he, htg]

/-- Witness for `unknown_provider_kind`: a contact point of kind `sms`. -/
theorem unknown_provider_kind_witness :
    processTask unknownKindEnv "alert" 42 =
      { updates := [("pending", ""),
          ("failed", "unsupported provider type: sms")],
        providerInvoked := false, created := true } :=
  unknown_provider_kind unknownKindEnv "alert" 42 "sms" rfl rfl (by decide)
    rfl rfl (by decide) (by decide)

/-- **C10 counterexample** A `resolved` task whose latest notification was
`sent` with the same value is still dispatched when that record's
`latest_status` is not `"resolved"`: the provider is invoked and no
`cancelled` status is recorded, contrary to the claim. -/
theorem resolved_dedup_cex :
    resolvedPriorSentEnv.latest =
      some { status := "sent", latestStatus := "alert", value := 42 } ∧
    (processTask resolvedPriorSentEnv "resolved" 42).providerInvoked = true ∧
    ("cancelled", "already sent and resolved with same value") ∉
      (processTask resolvedPriorSentEnv "resolved" 42).updates := by
  refine ⟨rfl, by decide, by decide⟩

/-- **C10 (amended)** Resolved-event special case: for a `resolved` task,
when the latest notification for the alert id has `latest_status`
`"resolved"`, status `"sent"` and the same value, the record is set to
`cancelled` with reason "already sent and resolved with same value" and no
provider is invoked; when its status is not `"sent"` (in particular
`failed`), dispatch proceeds exactly as for a non-resolved task. -/
theorem resolved_dedup (env : ProcessEnv) (tv : Int) (l : NotificationRec)
    (hreq : env.requestIDValid = true) (hcreate : env.createOk = true)
    (hl : env.latest = some l) :
    (l.latestStatus = "resolved" → l.status = "sent" → l.value = tv →
      processTask env "resolved" tv =
        { updates := [("cancelled",
            "already sent and resolved with same value")],
          providerInvoked := false, created := true }) ∧
    (l.status ≠ "sent" →
      processTask env "resolved" tv = processTask env "alert" tv) := by
  constructor
  · intro h1 h2 h3
    have hc : resolvedCancel env "resolved" tv = true := by
      unfold resolvedCancel
      rw [hl]
      simp [h1, h2, h3]
    unfold processTask
    rw [hreq, hcreate, hc]
    simp
  · intro hns
    have hc1 : resolvedCancel env "resolved" tv = false := by
      unfold resolvedCancel
      rw [hl]
      simp [hns]
    have hc2 : resolvedCancel env "alert" tv = false := by
      unfold resolvedCancel
      simp
    unfold processTask
    rw [hc1, hc2]

/-- Witness for `resolved_dedup`: the cancel branch fires on a concrete
`sent`/`resolved` prior record, and a `failed` prior record dispatches like
a fresh alert. -/
theorem resolved_dedup_witness :
    processTask resolvedCancelEnv "resolved" 42 =
      { updates := [("cancelled",
          "already sent and resolved with same value")],
        providerInvoked := false, created := true } ∧
    processTask resolvedPriorFailedEnv "resolved" 42 =
      processTask resolvedPriorFailedEnv "alert" 42 :=
  ⟨(resolved_dedup resolvedCancelEnv 42
      { status := "sent", latestStatus := "resolved", value := 42 }
      rfl rfl rfl).1 rfl rfl rfl,
   (resolved_dedup resolvedPriorFailedEnv 42
      { status := "failed", latestStatus := "resolved", value := 42 }
      rfl rfl rfl).2 (by decide)⟩

/-- **C9 (code bug)** Timestamp decoding: the custom decoder accepts only
the 7-element numeric array form; an ISO-8601 string timestamp is rejected
with an unmarshal error because the shadowing `[]interface` field cannot
hold a JSON string. -/
theorem timestamp_string_rejected :
    unmarshalTimestampField
        (.str "2025-05-01T02:03:04Z") =
      .error "json: cannot unmarshal string into Go value of type slice" ∧
    unmarshalTimestampField (.arr [2025, 5, 1, 2, 3, 4, 0]) =
      .ok { year := 2025, month := 5, day := 1, hour := 2, minute := 3,
            second := 4, nanosecond := 0 } :=
  ⟨rfl, rfl⟩

/-- When every attempt in the remaining window fails, the loop exhausts the
window, sleeps between consecutive attempts only, and wraps the last
error. -/
theorem retryAux_all_fail (maxAttempts delay : Nat)
    (fn : Nat → Option String) (e : Nat → String) :
    ∀ left done lastErr,
      (∀ k, done ≤ k → k < done + left → fn k = some (e k)) →
      retryGoAux maxAttempts delay fn left done lastErr =
        { result := some ("failed after " ++ toString maxAttempts ++
            " attempts: " ++ goErrWrap
              (if left = 0 then lastErr else some (e (done + left - 1)))),
          calls := done + left,
          sleeps := List.replicate (left - 1) delay } := by
  intro left
  induction left with
  | zero =>
      intro done lastErr _
      simp [retryGoAux]
  | succ n ih =>
      intro done lastErr h
      have hdone : fn done = some (e done) :=
        h done (le_refl done) (by omega)
      have hrest := ih (done + 1) (some (e done))
        (fun k hk1 hk2 => h k (by omega) (by omega))
      unfold retryGoAux
      rw [hdone]
      simp only [hrest]
      cases n with
      | zero =>
          simp
      | succ m =>
          simp only [RetryTrace.mk.injEq]
          refine ⟨?_, by omega, ?_⟩
          · have harith : done + 1 + (m + 1) - 1 = done + (m + 1 + 1) - 1 :=
              by omega
            simp [harith]
          · simp only [gt_iff_lt, Nat.succ_pos, if_pos,
              Nat.add_sub_cancel]
            rfl

/-- When the first success inside the remaining window is at index `j`, the
loop stops right after the `j`-th invocation, having slept once per failed
attempt before it. -/
theorem retryAux_first_success (maxAttempts delay : Nat)
    (fn : Nat → Option String) (j : Nat) (hj : fn j = none) :
    ∀ left done lastErr, done ≤ j → j < done + left →
      (∀ k, done ≤ k → k < j → fn k ≠ none) →
      retryGoAux maxAttempts delay fn left done lastErr =
        { result := none, calls := j + 1,
          sleeps := List.replicate (j - done) delay } := by
  intro left
  induction left with
  | zero =>
      intro done lastErr h1 h2 _
      omega
  | succ n ih =>
      intro done lastErr h1 h2 hfirst
      by_cases hdj : done = j
      · subst hdj
        unfold retryGoAux
        rw [hj]
        simp
      · have hdlt : done < j := by omega
        have hfail : fn done ≠ none := hfirst done (le_refl done) hdlt
        obtain ⟨msg, hmsg⟩ : ∃ msg, fn done = some msg := by
          cases hcase : fn done with
          | none => exact absurd hcase hfail
          | some m => exact ⟨m, rfl⟩
        have hrest := ih (done + 1) (some msg) (by omega) (by omega)
          (fun k hk1 hk2 => hfirst k (by omega) hk2)
        unfold retryGoAux
        rw [hmsg]
        simp only [hrest]
        have hn : 0 < n := by omega
        simp only [gt_iff_lt, hn, if_pos, RetryTrace.mk.injEq]
        refine ⟨trivial, trivial, ?_⟩
        have hrep : j - done = (j - (done + 1)) + 1 := by omega
        rw [hrep]
        rfl

/-- The loop never makes more invocations than attempts remain. -/
theorem retryAux_calls_le (maxAttempts delay : Nat)
    (fn : Nat → Option String) :
    ∀ left done lastErr,
      (retryGoAux maxAttempts delay fn left done lastErr).calls ≤
        done + left := by
  intro left
  induction left with
  | zero =>
      intro done lastErr
      simp [retryGoAux]
  | succ n ih =>
      intro done lastErr
      unfold retryGoAux
      cases hcase : fn done with
      | none => simp
      | some msg =>
          simp only
          have := ih (done + 1) (some msg)
          omega

/-- **C8** Retrier contract: `Retry(n, delay, fn)` invokes `fn` at most `n`
times; when every attempt fails it makes exactly `n` calls, sleeps the fixed
`delay` between consecutive attempts (`n - 1` sleeps, no exponential
growth), and returns an error wrapping the last attempt's error; when the
first success is the `j`-th invocation it stops there with success after
`j` fixed-delay sleeps. -/
theorem retry_contract (n delay : Nat) (fn : Nat → Option String)
    (e : Nat → String) (hn : 1 ≤ n) :
    (retryGo n delay fn).calls ≤ n ∧
    ((∀ k, k < n → fn k = some (e k)) →
      retryGo n delay fn =
        { result := some ("failed after " ++ toString n ++ " attempts: " ++
            e (n - 1)),
          calls := n, sleeps := List.replicate (n - 1) delay }) ∧
    (∀ j, j < n → fn j = none → (∀ k, k < j → fn k ≠ none) →
      retryGo n delay fn =
        { result := none, calls := j + 1,
          sleeps := List.replicate j delay }) := by
  refine ⟨?_, ?_, ?_⟩
  · have := retryAux_calls_le n delay fn n 0 none
    unfold retryGo
    omega
  · intro hall
    unfold retryGo
    rw [retryAux_all_fail n delay fn e n 0 none
      (fun k hk1 hk2 => hall k (by omega))]
    have hne : ¬ n = 0 := by omega
    simp [hne, goErrWrap]
  · intro j hj hsucc hbefore
    unfold retryGo
    rw [retryAux_first_success n delay fn j hsucc n 0 none (by omega)
      (by omega) (fun k hk1 hk2 => hbefore k hk2)]
    simp

/-- Witness for `retry_contract`: a provider stub failing twice then
succeeding is invoked exactly three times, the overall result is success,
and the two sleeps are the fixed delay. -/
theorem retry_contract_witness :
    retryGo 3 1 flaky =
      { result := none, calls := 3, sleeps := [1, 1] } := by
  have h := (retry_contract 3 1 flaky (fun _ => "transient")
    (by decide)).2.2 2 (by decide) (by decide) (by decide)
  simpa using h

end NotificationService
